import Mathlib

/-!
Shallow embedding of the pi-finder investigator search-and-filter
application, covering the pieces the specification describes as the
ResultReconciler (the client page state and its derived memos), the
TrialMetadataGateway (the trial-meta API route and its client hook), and
the investigators search endpoint.

Conventions of the embedding:
- JS strings are Lean String values; helper functions that the source
  applies (trim, toLowerCase, startsWith, includes, split) are embedded
  as executable functions over the character list of the string.
- Nullable / optional JS values are Option values; JS falsiness of a
  string (null, undefined, or empty) and of a number (0 or undefined) is
  spelled out at each use site, mirroring the source expression.
- Network calls are parameters (oracles): the upstream registry is a
  function from a request batch to the sequence of page responses it
  would serve, and the database is a function from the query parts to
  the returned rows and count.
- Floating point distance decoration is not consulted by any of the
  filtering, pagination, or transport logic embedded here, so the
  Physician record keeps only the fields that logic reads.
-/

/-! ## JS string helpers -/

/-- Embedding of the JS lowercase conversion used by the filter predicate
(ASCII data in this application). -/
def jsLower (s : String) : String := String.mk (s.toList.map Char.toLower)

/-- Boolean prefix test on character lists. -/
def isPrefixOfL : List Char → List Char → Bool
  | [], _ => true
  | _ :: _, [] => false
  | a :: as, b :: bs => (a == b) && isPrefixOfL as bs

/-- Embedding of the JS startsWith test. -/
def jsStartsWith (s pre : String) : Bool := isPrefixOfL pre.toList s.toList

/-- Boolean infix (substring) test: embedding of the JS includes test. -/
def hasInfixL (pat : List Char) : List Char → Bool
  | [] => isPrefixOfL pat []
  | c :: rest => isPrefixOfL pat (c :: rest) || hasInfixL pat rest

/-- Embedding of the JS substring containment test on strings. -/
def hasSubstr (s pat : String) : Bool := hasInfixL pat.toList s.toList

/-- Whitespace set used by the embedded JS trim (the application only
ever passes ASCII identifiers). -/
def isJsWs (c : Char) : Bool := c == ' ' || c == '\t' || c == '\n' || c == '\r'

/-- Embedding of the JS trim on a character list. -/
def jsTrim (cs : List Char) : List Char :=
  ((cs.dropWhile isJsWs).reverse.dropWhile isJsWs).reverse

/-- Embedding of the JS split on a comma: splitting the empty string
yields one empty field, exactly as in JS. -/
def splitComma : List Char → List (List Char)
  | [] => [[]]
  | c :: rest =>
    if c == ',' then [] :: splitComma rest
    else
      match splitComma rest with
      | [] => [[c]]
      | w :: ws => (c :: w) :: ws

/-- Embedding of the JS Array.join with a comma separator. -/
def joinComma : List String → String
  | [] => ""
  | [x] => x
  | x :: y :: rest => x ++ "," ++ joinComma (y :: rest)

/-! ## Data model (lib/constants.ts, lib/types.ts, trial-filter-drawer.tsx) -/

/-- Investigator record as consumed by the reconciler: the fields the
filtering / pagination logic reads (identifier, name, external trial
identifier, study start date).  Presentational fields and the floating
point distance decoration are never consulted by that logic. -/
structure Physician where
  id : Nat
  name : String
  nctId : Option String
  startDate : String
deriving DecidableEq, Repr

/-- Server page response of the investigators endpoint. -/
structure ApiResponse where
  physicians : List Physician
  totalCount : Nat
deriving DecidableEq, Repr

/-- Normalized trial attributes produced by the trial-meta route. -/
structure TrialMeta where
  nctId : String
  phase : String
  fundedBy : Option String
  overallStatus : Option String
deriving DecidableEq, Repr

/-- User-selected trial filters (FilterCriteria).  In the source the
sponsorType union type has the two values used below. -/
structure TrialFilters where
  phases : List String
  sponsorType : String
  recruitingOnly : Bool
deriving DecidableEq, Repr

/-- Identity FilterCriteria (DEFAULT_FILTERS in the page source). -/
def identityFilters : TrialFilters := ⟨[], "Any", false⟩

/-- ITEMS_PER_PAGE from lib/constants.ts. -/
def ITEMS_PER_PAGE : Nat := 6

/-! ## ResultReconciler (page source part_002) -/

/-- Embedding of the isTrialFilterActive memo: some phase selected, or a
sponsor constraint other than Any, or recruiting-only set. -/
def isTrialFilterActive (f : TrialFilters) : Bool :=
  decide (0 < f.phases.length) || (f.sponsorType != "Any") || f.recruitingOnly

/-- Embedding of the metaMap memo: a Map built by inserting each fetched
TrialMeta keyed by its nctId in order, later entries overwriting. -/
def buildMetaMap (tms : List TrialMeta) (k : String) : Option TrialMeta :=
  tms.foldl (fun acc tm => if tm.nctId == k then some tm else acc) none

/-- Attribute lookup for one investigator: the source guards with JS
truthiness of nctId (null, undefined or empty string all skip the map
lookup and leave the attributes undefined). -/
def metaFor (mm : String → Option TrialMeta) (p : Physician) : Option TrialMeta :=
  match p.nctId with
  | none => none
  | some s => if s == "" then none else mm s

/-- Filter predicate body of the filteredPhysicians memo, line for line:
unknown attributes exclude; a non-empty phase set excludes phases outside
it; the Industry constraint requires the lowercased sponsor to equal
industry; recruiting-only requires the lowercased status to start with
recruit. -/
def passesFilter (f : TrialFilters) (mm : String → Option TrialMeta) (p : Physician) : Bool :=
  match metaFor mm p with
  | none => false
  | some m =>
    if decide (0 < f.phases.length) && !(f.phases.contains m.phase) then false
    else if (f.sponsorType == "Industry") &&
        !((m.fundedBy.map (fun s => jsLower s == "industry")).getD false) then false
    else if f.recruitingOnly &&
        !((m.overallStatus.map (fun s => jsStartsWith (jsLower s) "recruit")).getD false) then false
    else true

/-- Embedding of the filteredPhysicians memo applied to an already
selected base sequence: empty base short-circuits to empty, inactive
filters (spelled exactly as in the source, with the redundant
no-constraint re-check) return the base verbatim, otherwise a stable
filter runs over the base. -/
def filteredPhysicians (f : TrialFilters) (mm : String → Option TrialMeta)
    (base : List Physician) : List Physician :=
  if base.isEmpty then []
  else if !(isTrialFilterActive f) ||
      (f.phases.isEmpty && (f.sponsorType == "Any") && !f.recruitingOnly) then base
  else base.filter (passesFilter f mm)

/-- Embedding of the JS slice used by the paginatedPhysicians memo:
slice(start, start + ITEMS_PER_PAGE) for a 1-based page. -/
def jsSlice (l : List Physician) (page : Nat) : List Physician :=
  (l.drop ((page - 1) * ITEMS_PER_PAGE)).take ITEMS_PER_PAGE

/-- Snapshot of the page state feeding the reconciler memos.  The
allPhysicians field holds the result of the full-set (searchAll) fetch
when it has arrived; allError its failure message; trialMeta the trial
metadata query data, whose React Query default is the empty list while
the query has no data (in particular after a metadata failure). -/
structure ReconcilerState where
  filters : TrialFilters
  data : Option ApiResponse
  allPhysicians : Option (List Physician)
  allLoading : Bool
  allError : Option String
  trialMeta : List TrialMeta
  metaError : Bool
  currentPage : Nat
  isSearching : Bool
  hasSearchParams : Bool
  queryError : Bool
deriving DecidableEq, Repr

/-- Server page contents with the JS fallback to the empty list. -/
def pageOf (st : ReconcilerState) : List Physician :=
  (st.data.map ApiResponse.physicians).getD []

/-- Base sequence selection shared by the nctIds and filteredPhysicians
memos: the full set when a trial filter is active and the full set has
arrived (a present JS array is truthy even when empty), else the page. -/
def stBase (st : ReconcilerState) : List Physician :=
  if isTrialFilterActive st.filters then
    match st.allPhysicians with
    | some all => all
    | none => pageOf st
  else pageOf st

/-- Metadata lookup map of the snapshot. -/
def stMetaMap (st : ReconcilerState) : String → Option TrialMeta :=
  buildMetaMap st.trialMeta

/-- Filtered sequence of the snapshot. -/
def stFiltered (st : ReconcilerState) : List Physician :=
  filteredPhysicians st.filters (stMetaMap st) (stBase st)

/-- Displayed sequence: in-memory pagination of the filtered sequence
when a trial filter is active, the filtered sequence itself otherwise. -/
def stDisplayed (st : ReconcilerState) : List Physician :=
  if isTrialFilterActive st.filters then jsSlice (stFiltered st) st.currentPage
  else stFiltered st

/-- Reported total count: the filtered length in filtered mode, else the
server count with the JS fallback to zero. -/
def totalCountToShow (st : ReconcilerState) : Nat :=
  if isTrialFilterActive st.filters then (stFiltered st).length
  else (st.data.map ApiResponse.totalCount).getD 0

/-- Render outcome of the results section body (the ternary chain at the
bottom of the page source). -/
inductive ResultsView where
  | skeletonView
  | gridView (ps : List Physician)
  | emptyView
  | noView
deriving DecidableEq, Repr

/-- Embedding of the results section ternary chain: searching shows the
skeleton, a non-empty displayed list shows the grid, a completed search
without a page-query error shows the empty placeholder. -/
def resultsView (st : ReconcilerState) : ResultsView :=
  if st.isSearching then .skeletonView
  else if decide (0 < (stDisplayed st).length) then .gridView (stDisplayed st)
  else if st.hasSearchParams && !st.queryError then .emptyView
  else .noView

/-- Visibility of the results-count header row: rendered only when a
search ran, nothing is loading, neither the page query nor the full-set
fetch errored, and something is displayed. -/
def headerShown (st : ReconcilerState) : Bool :=
  st.hasSearchParams && !(st.isSearching || st.allLoading) && !st.queryError &&
    !st.allError.isSome && decide (0 < (stDisplayed st).length)

/-- Visibility of the full-set fetch error message. -/
def allErrorShown (st : ReconcilerState) : Bool := st.allError.isSome

/-- Visibility of the metadata failure warning alert. -/
def metaWarningShown (st : ReconcilerState) : Bool := st.metaError

/-- Specification predicate (spec section 4.4) for one investigator under
active filters: it must be attributable to a TrialAttributes record, its
phase must be in the phase set when that set is non-empty, its sponsor
must be case-insensitively industry under the industry-only constraint,
and its status must case-insensitively start with recruit under the
recruiting-only constraint. -/
def specFilterPred (f : TrialFilters) (mm : String → Option TrialMeta) (p : Physician) : Prop :=
  ∃ m, metaFor mm p = some m ∧
    (f.phases ≠ [] → m.phase ∈ f.phases) ∧
    (f.sponsorType = "Industry" → ∃ s, m.fundedBy = some s ∧ jsLower s = "industry") ∧
    (f.recruitingOnly = true →
      ∃ s, m.overallStatus = some s ∧ jsStartsWith (jsLower s) "recruit" = true)

/-! ## TrialMetadataGateway (app/api/trial-meta/route.ts, use-trial-meta hook) -/

/-- MAX_BATCH from the trial-meta route. -/
def MAX_BATCH : Nat := 100

/-- Raw registry study record, reduced to the requested field paths
(identification nctId, design phases, lead sponsor class, overall
status), with the optional modules flattened to options. -/
structure CtStudy where
  nctId : String
  phases : Option (List String)
  leadSponsorKind : Option String
  overallStatus : Option String
deriving DecidableEq, Repr

/-- Single upstream page: the studies array and the continuation token. -/
structure CtPage where
  studies : List CtStudy
  nextPageToken : Option String
deriving DecidableEq, Repr

/-- Upstream registry oracle: for one request batch, the sequence of
page responses the registry serves as the route follows continuation
tokens; an error value is a non-success HTTP status. -/
def CtUpstream (α : Type) : Type := List α → List (Except Nat CtPage)

/-- Error message thrown by the route on a non-success upstream
response. -/
def ctFailMsg (status : Nat) : String :=
  "ClinicalTrials.gov request failed (" ++ toString status ++ ")"

/-- Batching loop of fetchTrialMeta with explicit fuel, one unit per
iteration: consecutive slices of at most MAX_BATCH ids, in input order,
no deduplication. -/
def chunksFuel {α : Type} : Nat → List α → List (List α)
  | _, [] => []
  | 0, l => [l]
  | Nat.succ fuel, l => l.take MAX_BATCH :: chunksFuel fuel (l.drop MAX_BATCH)

/-- Batching loop of fetchTrialMeta applied with the list length as fuel
(one fuel unit per loop iteration is ample, and the zero-fuel fallback
is unreachable for a positive-size batch). -/
def chunks {α : Type} (l : List α) : List (List α) := chunksFuel l.length l

/-- Page loop for one batch: each served page is checked for success
(a non-success status aborts with the ClinicalTrials error), its studies
are appended, and the loop continues while a continuation token is
present. -/
def runPages : List (Except Nat CtPage) → Except String (List CtStudy)
  | [] => .ok []
  | (.error status) :: _ => .error (ctFailMsg status)
  | (.ok page) :: rest =>
    match page.nextPageToken with
    | none => .ok page.studies
    | some _ =>
      match runPages rest with
      | .error e => .error e
      | .ok more => .ok (page.studies ++ more)

/-- Sequential batch loop: batches are issued in order and the first
failure aborts the whole fetch, discarding everything gathered so far. -/
def runBatches {α : Type} (upstream : CtUpstream α) : List (List α) → Except String (List CtStudy)
  | [] => .ok []
  | b :: bs =>
    match runPages (upstream b) with
    | .error e => .error e
    | .ok studies =>
      match runBatches upstream bs with
      | .error e => .error e
      | .ok rest => .ok (studies ++ rest)

/-- Phase normalization of the route: take the first element of the
phases list with NA as the JS nullish fallback, then return the first
character in the range 1-4 found anywhere in it, else NA. -/
def firstDigit14 : List Char → Option Char
  | [] => none
  | c :: rest =>
    if c == '1' || c == '2' || c == '3' || c == '4' then some c
    else firstDigit14 rest

/-- Raw phase text selected by the route before matching. -/
def rawPhase (phases : Option (List String)) : String :=
  match phases with
  | none => "NA"
  | some [] => "NA"
  | some (h :: _) => h

/-- Normalized phase value of one study. -/
def normalizePhase (phases : Option (List String)) : String :=
  match firstDigit14 (rawPhase phases).toList with
  | some c => String.mk [c]
  | none => "NA"

/-- Shape trimming of one raw study into the TrialMeta the UI needs:
normalized phase, pass-through nullable sponsor class and status. -/
def trimStudy (s : CtStudy) : TrialMeta :=
  ⟨s.nctId, normalizePhase s.phases, s.leadSponsorKind, s.overallStatus⟩

/-- Embedding of fetchTrialMeta: batch the ids, run every batch against
the upstream oracle, and trim the concatenated studies. -/
def fetchTrialMeta {α : Type} (upstream : CtUpstream α) (ids : List α) :
    Except String (List TrialMeta) :=
  match runBatches upstream (chunks ids) with
  | .error e => .error e
  | .ok studies => .ok (studies.map trimStudy)

/-- Response of the trial-meta route: HTTP status and either the
trimmed records or an error body. -/
structure MetaResponse where
  status : Nat
  body : Except String (List TrialMeta)
deriving Repr

/-- Id parsing of the GET form: split the ids query parameter on commas,
trim each field, and drop empties. -/
def parseGetIds (idsParam : String) : List String :=
  ((splitComma idsParam.toList).map (fun cs => String.mk (jsTrim cs))).filter
    (fun s => decide (0 < s.length))

/-- Id parsing of the POST form: the body array with falsy (empty)
entries dropped. -/
def parsePostIds (ids : List String) : List String := ids.filter (fun s => !(s == ""))

/-- Error-to-status mapping shared by both handlers: 502 when the thrown
message mentions ClinicalTrials, 500 otherwise. -/
def metaErrStatus (msg : String) : Nat :=
  if hasSubstr msg "ClinicalTrials" then 502 else 500

/-- Embedding of the GET handler of the trial-meta route. -/
def trialMetaGET (upstream : CtUpstream String) (idsParam : String) : MetaResponse :=
  let ids := parseGetIds idsParam
  if ids.isEmpty then ⟨400, .error "Missing ids query parameter"⟩
  else
    match fetchTrialMeta upstream ids with
    | .ok metas => ⟨200, .ok metas⟩
    | .error msg => ⟨metaErrStatus msg, .error msg⟩

/-- Embedding of the POST handler of the trial-meta route. -/
def trialMetaPOST (upstream : CtUpstream String) (ids : List String) : MetaResponse :=
  let kept := parsePostIds ids
  if kept.isEmpty then ⟨400, .error "Request body must include an ids array"⟩
  else
    match fetchTrialMeta upstream kept with
    | .ok metas => ⟨200, .ok metas⟩
    | .error msg => ⟨metaErrStatus msg, .error msg⟩

/-- Client transport choice of the useTrialMeta hook. -/
inductive MetaTransport where
  | getForm
  | postForm
deriving DecidableEq, Repr

/-- URL the hook would use for the query-string form. -/
def metaUrl (ids : List String) : String := "/api/trial-meta?ids=" ++ joinComma ids

/-- Transport-size guard of the hook: POST exactly when the query-string
URL would exceed 1800 characters. -/
def clientTransport (ids : List String) : MetaTransport :=
  if decide (1800 < (metaUrl ids).length) then .postForm else .getForm

/-! ## Investigators search endpoint (app/api/investigators/route.ts) -/

/-- Year validation of the endpoint: a missing or empty (JS falsy)
parameter passes, otherwise the value must be four digits. -/
def isFourDigit (s : String) : Bool :=
  (s.length == 4) && s.toList.all Char.isDigit

/-- Validation including the JS falsiness shortcut. -/
def jsYearValid : Option String → Bool
  | none => true
  | some s => if s == "" then true else isFourDigit s

/-- Numeric value of a digit string (JS Number on the validated year
strings). -/
def digitsToNat (s : String) : Nat :=
  s.toList.foldl (fun a c => 10 * a + (c.toNat - '0'.toNat)) 0

/-- Embedding of the startYearNum / endYearNum conversion: a falsy
(absent or empty) parameter stays undefined, others convert to their
number. -/
def numOfYear : Option String → Option Nat
  | none => none
  | some s => if s == "" then none else some (digitsToNat s)

/-- JS truthiness of the optional year number: 0 is falsy. -/
def jsTruthyNum : Option Nat → Bool
  | none => false
  | some n => !(n == 0)

/-- Embedding of the auto-swap: only performed when both year numbers
are truthy and inverted. -/
def swapYearsNum (sy ey : Option Nat) : Option Nat × Option Nat :=
  if jsTruthyNum sy && jsTruthyNum ey && decide (ey.getD 0 < sy.getD 0) then (ey, sy)
  else (sy, ey)

/-- Date bounds pushed into the where clause: each bound is added only
when its year number is truthy. -/
structure DateRange where
  gteDate : Option String
  lteDate : Option String
deriving DecidableEq, Repr

/-- Where-clause construction from the (possibly swapped) year
numbers. -/
def yearRange (sy ey : Option Nat) : DateRange :=
  ⟨if jsTruthyNum sy then some (toString (sy.getD 0) ++ "-01-01") else none,
   if jsTruthyNum ey then some (toString (ey.getD 0) ++ "-12-31") else none⟩

/-- Page clamp of the endpoint: Math.max(page, 1) on the parsed page
number. -/
def clampPage (n : Int) : Int := max n 1

/-- Offset passed to the database query. -/
def invOffset (n : Int) : Int := (clampPage n - 1) * (ITEMS_PER_PAGE : Int)

/-- Zip validation regex of the endpoint. -/
def isFiveDigit (s : String) : Bool :=
  (s.length == 5) && s.toList.all Char.isDigit

/-- Request to the investigators endpoint; the page parameter is taken
already parsed to a number (integral in this embedding). -/
structure InvRequest where
  zip : String
  radius : Nat
  page : Int
  startYear : Option String
  endYear : Option String
deriving DecidableEq, Repr

/-- Response body of the investigators endpoint. -/
inductive InvBody where
  | okBody (physicians : List Physician) (totalCount : Nat)
  | errBody (msg : String)
deriving DecidableEq, Repr

/-- Response of the investigators endpoint. -/
structure InvResponse where
  status : Nat
  body : InvBody
deriving DecidableEq, Repr

/-- Geo oracle: resolved radius zip list for a known center zip, none
for an unknown one. -/
def GeoOracle : Type := String → Nat → Option (List String)

/-- Database oracle: rows-with-count for the zip list, the date range
and the offset (the fixed order-by and limit are part of the oracle). -/
def DbOracle : Type := List String → DateRange → Int → List Physician × Nat

/-- Embedding of the investigators GET handler: page clamp, year
validation, auto-swap, zip validation, geo lookup, then the paged and
counted query. -/
def investigatorsGET (geo : GeoOracle) (db : DbOracle) (req : InvRequest) : InvResponse :=
  if !(jsYearValid req.startYear && jsYearValid req.endYear) then
    ⟨400, .errBody "startYear/endYear must be 4-digit numbers"⟩
  else
    let p := swapYearsNum (numOfYear req.startYear) (numOfYear req.endYear)
    if !(isFiveDigit req.zip) then ⟨400, .errBody "Invalid zip"⟩
    else
      match geo req.zip req.radius with
      | none => ⟨404, .errBody "Unknown zip"⟩
      | some zipList =>
        let r := db zipList (yearRange p.1 p.2) (invOffset req.page)
        ⟨200, .okBody r.1 r.2⟩

/-! ## Concrete fixtures used by witnesses and counterexamples -/

/-- Metadata record fixture (spec section 8 scenario data). -/
def tmNCT01 : TrialMeta := ⟨"NCT01", "2", some "OTHER", some "COMPLETED"⟩

/-- Metadata record fixture (spec section 8 scenario data). -/
def tmNCT02 : TrialMeta := ⟨"NCT02", "3", some "INDUSTRY", some "RECRUITING"⟩

/-- Investigator fixture tied to NCT01. -/
def drOne : Physician := ⟨1, "Dr One", some "NCT01", "2020-01-01"⟩

/-- Investigator fixture tied to NCT02. -/
def drTwo : Physician := ⟨2, "Dr Two", some "NCT02", "2021-01-01"⟩

/-- Investigator fixture without an external trial identifier. -/
def drNoTrial : Physician := ⟨3, "Dr Three", none, "2019-01-01"⟩

/-- Snapshot in filtered mode with the full set available. -/
def c1State : ReconcilerState :=
  ⟨⟨["2"], "Any", false⟩, some ⟨[drOne, drTwo], 2⟩, some [drOne, drTwo, drNoTrial],
    false, none, [tmNCT01, tmNCT02], false, 1, false, true, false⟩

/-- Snapshot in filtered mode right after the full-set fetch failed on
first activation: the filter is active, no full set ever arrived, the
failure message is set, and the page query and the page-scoped metadata
fetch both succeeded earlier. -/
def c2State : ReconcilerState :=
  ⟨⟨["2"], "Any", false⟩, some ⟨[drOne], 1⟩, none,
    false, some "Failed to fetch all results", [tmNCT01], false, 1, false, true, false⟩

/-- Snapshot in unfiltered mode with a served page. -/
def c4State : ReconcilerState :=
  ⟨identityFilters, some ⟨[drOne, drNoTrial], 7⟩, none,
    false, none, [], false, 1, false, true, false⟩

/-- Recruiting-only filters fixture. -/
def recruitOnlyFilters : TrialFilters := ⟨[], "Any", true⟩

/-- Snapshot in filtered mode after the metadata fetch failed: the trial
metadata query data fell back to its empty-list default and the error
flag is set. -/
def c5State : ReconcilerState :=
  ⟨recruitOnlyFilters, some ⟨[drOne], 1⟩, some [drOne],
    false, none, [], true, 1, false, true, false⟩

/-- Upstream oracle fixture whose every batch fails with HTTP 500. -/
def upstreamFail : CtUpstream String := fun _ => [.error 500]

/-- Upstream oracle fixture serving one empty final page per batch. -/
def upstreamEmpty : CtUpstream String := fun _ => [.ok ⟨[], none⟩]

/-- Upstream oracle fixture serving, for every batch, one final page
holding the single study A (as the registry does when the batch filter
matches that study). -/
def upstreamEchoA : CtUpstream String := fun _ => [.ok ⟨[⟨"A", none, none, none⟩], none⟩]

/-- List of 150 distinct NCT-style identifiers. -/
def distinct150 : List String := (List.range 150).map (fun n => "NCT" ++ toString n)

/-- Identifier list whose distinct-id set has 150 elements but whose raw
length is 300 (every id appears twice). -/
def dup300 : List String := distinct150 ++ distinct150

/-- Geo oracle fixture knowing one center zip. -/
def geo0 : GeoOracle := fun z _ => if z == "77030" then some [z] else none

/-- Database oracle fixture whose count reveals whether a lower date
bound was part of the where clause. -/
def db0 : DbOracle := fun _ r _ => ([], if r.gteDate.isSome then 1 else 0)

/-- Inverted-years request whose endYear is the all-zero 4-digit year. -/
def c9reqA : InvRequest := ⟨"77030", 15, 1, some "1000", some "0000"⟩

/-- Swapped form of the previous request. -/
def c9reqB : InvRequest := ⟨"77030", 15, 1, some "0000", some "1000"⟩

/-- Request carrying a present but empty startYear parameter. -/
def c9reqC : InvRequest := ⟨"77030", 15, 1, some "", none⟩

/-! ## Helper lemmas -/

/-- Characterization of the active-filter test: the code flag is true
exactly on the non-identity FilterCriteria values. -/
theorem isTrialFilterActive_iff (f : TrialFilters) :
    isTrialFilterActive f = true ↔ f ≠ identityFilters := by
  cases f with
  | mk ph sp rec =>
    simp only [isTrialFilterActive, identityFilters, Bool.or_eq_true, decide_eq_true_eq,
      bne_iff_ne, ne_eq, TrialFilters.mk.injEq, not_and, List.length_pos]
    cases rec <;> tauto

/-- Under an active filter the source filter loop runs (the redundant
no-constraint re-check cannot fire). -/
theorem filteredPhysicians_of_active (f : TrialFilters) (mm : String → Option TrialMeta)
    (base : List Physician) (h : isTrialFilterActive f = true) :
    filteredPhysicians f mm base = base.filter (passesFilter f mm) := by
  have hcheck : (f.phases.isEmpty && (f.sponsorType == "Any") && !f.recruitingOnly) = false := by
    rcases f with ⟨ph, sp, rec⟩
    simp only [isTrialFilterActive, Bool.or_eq_true, decide_eq_true_eq, bne_iff_ne,
      List.length_pos] at h
    rcases h with (h | h) | h
    · cases ph
      · simp at h
      · simp
    · simp [h]
    · simp [h]
  unfold filteredPhysicians
  rcases hbase : base.isEmpty with _ | _
  · simp [hbase, h, hcheck]
  · have : base = [] := by simpa using hbase
    simp [this]

/-- Under an inactive filter the base sequence is returned verbatim. -/
theorem filteredPhysicians_of_inactive (f : TrialFilters) (mm : String → Option TrialMeta)
    (base : List Physician) (h : isTrialFilterActive f = false) :
    filteredPhysicians f mm base = base := by
  unfold filteredPhysicians
  rcases hbase : base.isEmpty with _ | _
  · simp [hbase, h]
  · have : base = [] := by simpa using hbase
    simp [this, hbase]

/-- Bool-level consequence extraction: a passing investigator satisfies
the specification predicate of section 4.4. -/
theorem specFilterPred_of_passes (f : TrialFilters) (mm : String → Option TrialMeta)
    (p : Physician) (h : passesFilter f mm p = true) : specFilterPred f mm p := by
  unfold passesFilter at h
  revert h
  rcases hm : metaFor mm p with _ | m
  · intro h; exact absurd h (by simp)
  · intro h
    have hchain : (if decide (0 < f.phases.length) && !(f.phases.contains m.phase) then false
        else if (f.sponsorType == "Industry") &&
            !((m.fundedBy.map (fun s => jsLower s == "industry")).getD false) then false
        else if f.recruitingOnly &&
            !((m.overallStatus.map (fun s => jsStartsWith (jsLower s) "recruit")).getD
              false) then false
        else true) = true := h
    rcases hc1 : (decide (0 < f.phases.length) && !(f.phases.contains m.phase)) with _ | _
    · rw [hc1] at hchain
      simp only [Bool.false_eq_true, if_false] at hchain
      rcases hc2 : ((f.sponsorType == "Industry") &&
          !((m.fundedBy.map (fun s => jsLower s == "industry")).getD false)) with _ | _
      · rw [hc2] at hchain
        simp only [Bool.false_eq_true, if_false] at hchain
        rcases hc3 : (f.recruitingOnly &&
            !((m.overallStatus.map (fun s => jsStartsWith (jsLower s) "recruit")).getD
              false)) with _ | _
        · refine ⟨m, hm, ?_, ?_, ?_⟩
          · intro hne
            have ha : decide (0 < f.phases.length) = true := by
              simpa [List.length_pos] using hne
            have hb : f.phases.contains m.phase = true := by
              rcases hcb : f.phases.contains m.phase with _ | _
              · rw [ha, hcb] at hc1; exact absurd hc1 (by simp)
              · rfl
            simpa using hb
          · intro hsp
            have ha : (f.sponsorType == "Industry") = true := by simpa using hsp
            have hb : ((m.fundedBy.map (fun s => jsLower s == "industry")).getD false)
                = true := by
              rcases hcb : ((m.fundedBy.map (fun s => jsLower s == "industry")).getD
                  false) with _ | _
              · rw [ha, hcb] at hc2; exact absurd hc2 (by simp)
              · rfl
            rcases hf : m.fundedBy with _ | s
            · rw [hf] at hb; exact absurd hb (by simp)
            · rw [hf] at hb
              exact ⟨s, rfl, by simpa using hb⟩
          · intro hrec
            have hb : ((m.overallStatus.map
                (fun s => jsStartsWith (jsLower s) "recruit")).getD false) = true := by
              rcases hcb : ((m.overallStatus.map
                  (fun s => jsStartsWith (jsLower s) "recruit")).getD false) with _ | _
              · rw [hrec, hcb] at hc3; exact absurd hc3 (by simp)
              · rfl
            rcases hs : m.overallStatus with _ | s
            · rw [hs] at hb; exact absurd hb (by simp)
            · rw [hs] at hb
              exact ⟨s, rfl, by simpa using hb⟩
        · rw [hc3] at hchain; exact absurd hchain (by simp)
      · rw [hc2] at hchain; exact absurd hchain (by simp)
    · rw [hc1] at hchain; exact absurd hchain (by simp)

/-- Base selection in filtered mode once the full set arrived. -/
theorem stBase_of_active_some (st : ReconcilerState) (all : List Physician)
    (h : isTrialFilterActive st.filters = true) (hall : st.allPhysicians = some all) :
    stBase st = all := by
  simp [stBase, h, hall]

/-- Base selection in filtered mode while no full set is present: the
memo falls back to the server page. -/
theorem stBase_of_active_none (st : ReconcilerState)
    (h : isTrialFilterActive st.filters = true) (hall : st.allPhysicians = none) :
    stBase st = pageOf st := by
  simp [stBase, h, hall]

/-- Base selection in unfiltered mode. -/
theorem stBase_of_inactive (st : ReconcilerState)
    (h : isTrialFilterActive st.filters = false) : stBase st = pageOf st := by
  simp [stBase, h]

/-! ## Claim theorems -/

/-- C1: for every non-identity FilterCriteria, once the full unpaged set
has arrived the filtered output is an order-preserving subsequence of
it, the in-memory page is in turn an order-preserving subsequence of the
filtered output, and every filtered element satisfies the section 4.4
predicate (phase membership under a non-empty phase set, case-insensitive
industry sponsor under the industry-only constraint, case-insensitive
recruit-prefixed status under the recruiting-only constraint). -/
theorem c1_filtered_subsequence_and_predicate (st : ReconcilerState) (all : List Physician)
    (hf : st.filters ≠ identityFilters) (hall : st.allPhysicians = some all) :
    (stFiltered st).Sublist all
    ∧ (stDisplayed st).Sublist (stFiltered st)
    ∧ ∀ p ∈ stFiltered st, specFilterPred st.filters (stMetaMap st) p := by
  have hact : isTrialFilterActive st.filters = true := (isTrialFilterActive_iff _).mpr hf
  have hbase : stBase st = all := stBase_of_active_some st all hact hall
  have hfil : stFiltered st = all.filter (passesFilter st.filters (stMetaMap st)) := by
    unfold stFiltered
    rw [hbase, filteredPhysicians_of_active _ _ _ hact]
  refine ⟨?_, ?_, ?_⟩
  · rw [hfil]; exact List.filter_sublist all
  · unfold stDisplayed
    rw [if_pos hact]
    exact ((List.take_sublist _ _).trans (List.drop_sublist _ _))
  · intro p hp
    rw [hfil] at hp
    exact specFilterPred_of_passes _ _ _ (List.mem_filter.mp hp).2

/-- Witness for C1 at a concrete filtered-mode snapshot. -/
theorem c1_witness :
    (stFiltered c1State).Sublist [drOne, drTwo, drNoTrial] :=
  (c1_filtered_subsequence_and_predicate c1State [drOne, drTwo, drNoTrial]
    (by decide) rfl).1

/-- C4: for the identity FilterCriteria the displayed output is the
server page verbatim and the reported total is the server count. -/
theorem c4_identity_passthrough (st : ReconcilerState) (d : ApiResponse)
    (hf : st.filters = identityFilters) (hd : st.data = some d) :
    stDisplayed st = d.physicians ∧ totalCountToShow st = d.totalCount := by
  have hact : isTrialFilterActive st.filters = false := by
    rw [hf]; decide
  have hbase : stBase st = d.physicians := by
    rw [stBase_of_inactive st hact]
    simp [pageOf, hd]
  have hfil : stFiltered st = d.physicians := by
    unfold stFiltered
    rw [filteredPhysicians_of_inactive _ _ _ hact, hbase]
  constructor
  · unfold stDisplayed
    rw [if_neg (by simp [hact]), hfil]
  · unfold totalCountToShow
    rw [if_neg (by simp [hact])]
    simp [hd]

/-- Witness for C4 at a concrete unfiltered snapshot. -/
theorem c4_witness :
    stDisplayed c4State = [drOne, drNoTrial] ∧ totalCountToShow c4State = 7 :=
  c4_identity_passthrough c4State ⟨[drOne, drNoTrial], 7⟩ rfl rfl

/-- C5: investigators whose trial attributes cannot be resolved are
excluded exactly in filtered mode.  A missing external identifier makes
the lookup undefined; an identifier absent from the lookup map does too;
any investigator with an undefined lookup is excluded under every
non-identity FilterCriteria; after a metadata failure (empty metadata
default) the filtered result is empty with the warning alert shown and
no exception, and under the identity FilterCriteria every base
investigator is included. -/
theorem c5_fail_closed :
    (∀ (mm : String → Option TrialMeta) (p : Physician),
      p.nctId = none → metaFor mm p = none)
    ∧ (∀ (mm : String → Option TrialMeta) (p : Physician) (s : String),
      p.nctId = some s → mm s = none → metaFor mm p = none)
    ∧ (∀ (f : TrialFilters) (mm : String → Option TrialMeta) (base : List Physician)
        (p : Physician), f ≠ identityFilters → metaFor mm p = none →
        p ∉ filteredPhysicians f mm base)
    ∧ (∀ st : ReconcilerState, st.filters ≠ identityFilters → st.trialMeta = [] →
        stFiltered st = [] ∧ (st.metaError = true → metaWarningShown st = true))
    ∧ (∀ (f : TrialFilters) (mm : String → Option TrialMeta) (base : List Physician)
        (p : Physician), f = identityFilters → p ∈ base →
        p ∈ filteredPhysicians f mm base) := by
  refine ⟨?_, ?_, ?_, ?_, ?_⟩
  · intro mm p h
    unfold metaFor
    rw [h]
  · intro mm p s h hmm
    unfold metaFor
    rw [h]
    rcases he : (s == "") with _ | _
    · simp [he, hmm]
    · simp [he]
  · intro f mm base p hf hmeta hmem
    have hact : isTrialFilterActive f = true := (isTrialFilterActive_iff _).mpr hf
    rw [filteredPhysicians_of_active _ _ _ hact] at hmem
    have hpass : passesFilter f mm p = true := (List.mem_filter.mp hmem).2
    unfold passesFilter at hpass
    rw [hmeta] at hpass
    exact absurd hpass (by simp)
  · intro st hf htm
    have hact : isTrialFilterActive st.filters = true := (isTrialFilterActive_iff _).mpr hf
    constructor
    · unfold stFiltered
      rw [filteredPhysicians_of_active _ _ _ hact]
      rw [List.filter_eq_nil_iff]
      intro p hp
      have hmeta : metaFor (stMetaMap st) p = none := by
        unfold metaFor
        rcases p.nctId with _ | s
        · rfl
        · rcases he : (s == "") with _ | _
          · simp [he, stMetaMap, htm, buildMetaMap]
          · simp [he]
      unfold passesFilter
      rw [hmeta]
      simp
    · intro hme
      unfold metaWarningShown
      exact hme
  · intro f mm base p hf hmem
    have hact : isTrialFilterActive f = false := by rw [hf]; decide
    rw [filteredPhysicians_of_inactive _ _ _ hact]
    exact hmem

/-- Witness for C5 at concrete inputs: the investigator without an
external identifier is excluded under the recruiting-only filter, and a
metadata-failure snapshot yields the empty filtered set with the
warning up. -/
theorem c5_witness :
    drNoTrial ∉ filteredPhysicians recruitOnlyFilters (buildMetaMap [tmNCT01])
        [drOne, drNoTrial]
    ∧ stFiltered c5State = [] ∧ metaWarningShown c5State = true :=
  ⟨c5_fail_closed.2.2.1 recruitOnlyFilters (buildMetaMap [tmNCT01]) [drOne, drNoTrial]
      drNoTrial (by decide) rfl,
    (c5_fail_closed.2.2.2.1 c5State (by decide) rfl).1,
    (c5_fail_closed.2.2.2.1 c5State (by decide) rfl).2 rfl⟩

/-- C2 counterexample: a reachable snapshot in which the full-set fetch
has failed (error message set, no full set present) while the page query
and the page-scoped metadata fetch succeeded.  The results section still
renders a non-empty grid built from the current page, so the display is
not left empty in the error state. -/
theorem c2_counterexample :
    isTrialFilterActive c2State.filters = true
    ∧ c2State.allPhysicians = none
    ∧ c2State.allError = some "Failed to fetch all results"
    ∧ resultsView c2State = .gridView [drOne]
    ∧ stDisplayed c2State = [drOne] := by
  refine ⟨by decide, rfl, rfl, ?_, ?_⟩ <;> rfl

/-- C2 as amended: when the full-set fetch fails in filtered mode the
error is surfaced (the failure message is rendered and the results-count
header is suppressed), but the display is not left empty: the reconciler
falls back to the current server page, filtered by the predicate and
paginated in memory. -/
theorem c2_error_surfaced_with_page_fallback (st : ReconcilerState) (e : String)
    (hf : st.filters ≠ identityFilters) (hnone : st.allPhysicians = none)
    (herr : st.allError = some e) :
    allErrorShown st = true
    ∧ headerShown st = false
    ∧ stDisplayed st =
        jsSlice (filteredPhysicians st.filters (stMetaMap st) (pageOf st)) st.currentPage := by
  have hact : isTrialFilterActive st.filters = true := (isTrialFilterActive_iff _).mpr hf
  refine ⟨?_, ?_, ?_⟩
  · unfold allErrorShown
    rw [herr]
    rfl
  · unfold headerShown
    rw [herr]
    simp
  · unfold stDisplayed
    rw [if_pos hact]
    unfold stFiltered
    rw [stBase_of_active_none st hact hnone]

/-- Witness for the amended C2 at the concrete failure snapshot. -/
theorem c2_witness :
    allErrorShown c2State = true ∧ headerShown c2State = false :=
  ⟨(c2_error_surfaced_with_page_fallback c2State "Failed to fetch all results"
      (by decide) rfl rfl).1,
    (c2_error_surfaced_with_page_fallback c2State "Failed to fetch all results"
      (by decide) rfl rfl).2.1⟩

/-- Digits found by the phase match are in the 1-4 range. -/
theorem firstDigit14_mem (cs : List Char) (c : Char) (h : firstDigit14 cs = some c) :
    c = '1' ∨ c = '2' ∨ c = '3' ∨ c = '4' := by
  induction cs with
  | nil => exact absurd h (by simp [firstDigit14])
  | cons a as ih =>
    unfold firstDigit14 at h
    rcases hc : (a == '1' || a == '2' || a == '3' || a == '4') with _ | _
    · rw [hc] at h
      simp only [Bool.false_eq_true, if_false] at h
      exact ih h
    · rw [hc] at h
      simp only [if_true] at h
      have ha := Option.some.inj h
      subst ha
      have h4 : ((a = '1' ∨ a = '2') ∨ a = '3') ∨ a = '4' := by simpa using hc
      tauto

/-- C7: the phase normalization of the trial-meta route always yields
one of 1, 2, 3, 4 or NA; it yields the matched digit when the first
free-text phase entry contains one, and NA when the phase list is absent
or empty or its first entry contains no digit in range. -/
theorem c7_phase_normalization (phases : Option (List String)) :
    normalizePhase phases ∈ (["1", "2", "3", "4", "NA"] : List String)
    ∧ (∀ c, firstDigit14 (rawPhase phases).toList = some c →
        normalizePhase phases = String.mk [c] ∧ (c = '1' ∨ c = '2' ∨ c = '3' ∨ c = '4'))
    ∧ (firstDigit14 (rawPhase phases).toList = none → normalizePhase phases = "NA")
    ∧ (phases = none ∨ phases = some [] → normalizePhase phases = "NA") := by
  refine ⟨?_, ?_, ?_, ?_⟩
  · unfold normalizePhase
    rcases hd : firstDigit14 (rawPhase phases).toList with _ | c
    · simp
    · rcases firstDigit14_mem _ _ hd with h | h | h | h <;> subst h <;> decide
  · intro c hd
    constructor
    · unfold normalizePhase
      rw [hd]
    · exact firstDigit14_mem _ _ hd
  · intro hd
    unfold normalizePhase
    rw [hd]
  · intro hcase
    have hraw : rawPhase phases = "NA" := by
      rcases hcase with h | h <;> subst h <;> rfl
    unfold normalizePhase
    rw [hraw]
    decide

/-- Witness for C7 on the free-text value Phase 2/Phase 3 and on an
absent phase list. -/
theorem c7_witness :
    normalizePhase (some ["Phase 2/Phase 3"]) = "2" ∧ normalizePhase none = "NA" := by
  constructor
  · have h := ((c7_phase_normalization (some ["Phase 2/Phase 3"])).2.1 '2' (by decide)).1
    rw [h]
  · exact (c7_phase_normalization none).2.2.2 (Or.inl rfl)

/-- C10: the page parameter of the investigators endpoint is clamped to
a minimum of one, the database offset derived from it is never negative,
and any page number at most one (zero, negative, or one itself) makes
the endpoint behave exactly as page one. -/
theorem c10_page_clamp :
    (∀ n : Int, 1 ≤ clampPage n ∧ 0 ≤ invOffset n)
    ∧ (∀ n : Int, n ≤ 1 → clampPage n = clampPage 1)
    ∧ (∀ (geo : GeoOracle) (db : DbOracle) (zip : String) (radius : Nat)
        (sy ey : Option String) (n : Int), n ≤ 1 →
        investigatorsGET geo db ⟨zip, radius, n, sy, ey⟩ =
          investigatorsGET geo db ⟨zip, radius, 1, sy, ey⟩) := by
  have hclamp : ∀ n : Int, 1 ≤ clampPage n := fun n => le_max_right n 1
  have hoff : ∀ n : Int, 0 ≤ invOffset n := by
    intro n
    unfold invOffset
    have h1 : (0 : Int) ≤ clampPage n - 1 := by have := hclamp n; omega
    positivity
  have hone : ∀ n : Int, n ≤ 1 → clampPage n = clampPage 1 := by
    intro n hn
    unfold clampPage
    omega
  refine ⟨fun n => ⟨hclamp n, hoff n⟩, hone, ?_⟩
  intro geo db zip radius sy ey n hn
  have hoffeq : invOffset n = invOffset 1 := by
    unfold invOffset
    rw [hone n hn]
  unfold investigatorsGET
  rw [hoffeq]

/-- Witness for C10 at page zero against concrete oracles. -/
theorem c10_witness :
    1 ≤ clampPage (-5) ∧ 0 ≤ invOffset (-5)
    ∧ investigatorsGET geo0 db0 ⟨"77030", 15, 0, none, none⟩ =
        investigatorsGET geo0 db0 ⟨"77030", 15, 1, none, none⟩ :=
  ⟨(c10_page_clamp.1 (-5)).1, (c10_page_clamp.1 (-5)).2,
    c10_page_clamp.2.2 geo0 db0 "77030" 15 none none 0 (by decide)⟩

/-- Four-digit years are non-empty strings. -/
theorem isFourDigit_ne_empty (s : String) (h : isFourDigit s = true) : (s == "") = false := by
  rcases he : (s == "") with _ | _
  · rfl
  · have : s = "" := by simpa using he
    subst this
    exact absurd h (by decide)

/-- Conversion of a valid year parameter to its number. -/
theorem numOfYear_of_fourDigit (s : String) (h : isFourDigit s = true) :
    numOfYear (some s) = some (digitsToNat s) := by
  simp only [numOfYear]
  rw [isFourDigit_ne_empty s h]
  simp

/-- Validation outcome of a four-digit year parameter. -/
theorem jsYearValid_of_fourDigit (s : String) (h : isFourDigit s = true) :
    jsYearValid (some s) = true := by
  simp only [jsYearValid]
  rw [isFourDigit_ne_empty s h]
  simpa using h

/-- C9 counterexample: both year strings are valid four-digit years and
inverted (1000 is greater than 0000), yet the endpoint does not behave
as it does for the corrected order, because the numeric value 0 of the
all-zero year is falsy and disables both the swap and its where clause;
moreover the present-but-empty year parameter is not a 4-digit number
and still does not receive a 400. -/
theorem c9_counterexample :
    isFourDigit "1000" = true ∧ isFourDigit "0000" = true
    ∧ digitsToNat "0000" < digitsToNat "1000"
    ∧ investigatorsGET geo0 db0 c9reqA ≠ investigatorsGET geo0 db0 c9reqB
    ∧ c9reqC.startYear = some "" ∧ isFourDigit "" = false
    ∧ (investigatorsGET geo0 db0 c9reqC).status = 200 := by
  decide

/-- C9 as amended: when startYear and endYear are valid 4-digit years
with non-zero numeric values and startYear greater than endYear, the
endpoint auto-swaps them, so its response is identical to the response
for the same request with the years in the correct order; and a year
parameter that is present, non-empty and not a 4-digit number yields
status 400. -/
theorem c9_year_swap_and_validation :
    (∀ (geo : GeoOracle) (db : DbOracle) (zip : String) (radius : Nat) (page : Int)
      (sy ey : String), isFourDigit sy = true → isFourDigit ey = true →
      0 < digitsToNat ey → digitsToNat ey < digitsToNat sy →
      investigatorsGET geo db ⟨zip, radius, page, some sy, some ey⟩ =
        investigatorsGET geo db ⟨zip, radius, page, some ey, some sy⟩)
    ∧ (∀ (geo : GeoOracle) (db : DbOracle) (zip : String) (radius : Nat) (page : Int)
      (sy ey : Option String) (s : String), (sy = some s ∨ ey = some s) → s ≠ "" →
      isFourDigit s = false →
      (investigatorsGET geo db ⟨zip, radius, page, sy, ey⟩).status = 400) := by
  constructor
  · intro geo db zip radius page sy ey h4s h4e hpos hord
    have hvs := jsYearValid_of_fourDigit sy h4s
    have hve := jsYearValid_of_fourDigit ey h4e
    have hns := numOfYear_of_fourDigit sy h4s
    have hne := numOfYear_of_fourDigit ey h4e
    have hz1 : (digitsToNat sy == 0) = false := by
      simp only [beq_eq_false_iff_ne, ne_eq]
      omega
    have hz2 : (digitsToNat ey == 0) = false := by
      simp only [beq_eq_false_iff_ne, ne_eq]
      omega
    have hsw1 : swapYearsNum (some (digitsToNat sy)) (some (digitsToNat ey)) =
        (some (digitsToNat ey), some (digitsToNat sy)) := by
      unfold swapYearsNum jsTruthyNum
      simp [hz1, hz2, hord]
    have hsw2 : swapYearsNum (some (digitsToNat ey)) (some (digitsToNat sy)) =
        (some (digitsToNat ey), some (digitsToNat sy)) := by
      unfold swapYearsNum jsTruthyNum
      have : ¬(digitsToNat sy < digitsToNat ey) := by omega
      simp [hz1, hz2, this]
    simp only [investigatorsGET, hvs, hve, hns, hne, hsw1, hsw2]
  · intro geo db zip radius page sy ey s hcase hne h4
    have hbe : (s == "") = false := by simpa using hne
    have hv : jsYearValid (some s) = false := by
      simp only [jsYearValid]
      rw [hbe]
      simpa using h4
    rcases hcase with hcase | hcase <;> subst hcase <;> simp [investigatorsGET, hv]

/-- Witness for the amended C9 at concrete inverted years, a concrete
malformed startYear, and a concrete malformed endYear. -/
theorem c9_witness :
    investigatorsGET geo0 db0 ⟨"77030", 15, 1, some "2021", some "2015"⟩ =
      investigatorsGET geo0 db0 ⟨"77030", 15, 1, some "2015", some "2021"⟩
    ∧ (investigatorsGET geo0 db0 ⟨"77030", 15, 1, some "20x1", none⟩).status = 400
    ∧ (investigatorsGET geo0 db0 ⟨"77030", 15, 1, some "2015", some "20x1"⟩).status = 400 :=
  ⟨c9_year_swap_and_validation.1 geo0 db0 "77030" 15 1 "2021" "2015"
      (by decide) (by decide) (by decide) (by decide),
    c9_year_swap_and_validation.2 geo0 db0 "77030" 15 1 (some "20x1") none "20x1"
      (Or.inl rfl) (by decide) (by decide),
    c9_year_swap_and_validation.2 geo0 db0 "77030" 15 1 (some "2015") (some "20x1") "20x1"
      (Or.inr rfl) (by decide) (by decide)⟩

/-- Every abort of the page loop carries the ClinicalTrials failure
message for some upstream status. -/
theorem runPages_error_shape (pages : List (Except Nat CtPage)) (e : String)
    (h : runPages pages = .error e) : ∃ s, e = ctFailMsg s := by
  induction pages generalizing e with
  | nil => simp [runPages] at h
  | cons pg rest ih =>
    cases pg with
    | error status =>
      simp only [runPages] at h
      exact ⟨status, (Except.error.inj h).symm⟩
    | ok page =>
      simp only [runPages] at h
      revert h
      rcases page.nextPageToken with _ | tk
      · intro h; simp at h
      · rcases hr : runPages rest with e2 | more
        · intro h
          have he2 : e2 = e := Except.error.inj h
          subst he2
          exact ih e2 hr
        · intro h; simp at h

/-- A failing batch anywhere in the batch list aborts the whole loop
with a ClinicalTrials failure message. -/
theorem runBatches_error {α : Type} (upstream : CtUpstream α) (bs : List (List α))
    (b : List α) (hb : b ∈ bs) (e : String) (he : runPages (upstream b) = .error e) :
    ∃ s, runBatches upstream bs = .error (ctFailMsg s) := by
  induction bs with
  | nil => cases hb
  | cons b0 rest ih =>
    simp only [runBatches]
    rcases h0 : runPages (upstream b0) with e0 | studies
    · obtain ⟨s, hs⟩ := runPages_error_shape _ _ h0
      refine ⟨s, ?_⟩
      rw [hs]
    · rcases List.mem_cons.mp hb with hbeq | hbmem
      · subst hbeq
        rw [h0] at he
        simp at he
      · obtain ⟨s, hs⟩ := ih hbmem
        refine ⟨s, ?_⟩
        rw [hs]

/-- Prefix test succeeds on a list extended to the right. -/
theorem isPrefixOfL_append_self (l t : List Char) : isPrefixOfL l (l ++ t) = true := by
  induction l with
  | nil => rfl
  | cons a as ih => simp [isPrefixOfL, ih]

/-- A prefix is in particular a substring. -/
theorem hasInfixL_of_prefix (pat l : List Char) (h : isPrefixOfL pat l = true) :
    hasInfixL pat l = true := by
  cases l with
  | nil => simpa [hasInfixL] using h
  | cons c rest => simp [hasInfixL, h]

/-- Every ClinicalTrials failure message contains the marker the catch
block of the route tests for. -/
theorem hasSubstr_ctFailMsg (status : Nat) :
    hasSubstr (ctFailMsg status) "ClinicalTrials" = true := by
  unfold hasSubstr ctFailMsg
  apply hasInfixL_of_prefix
  have hA : ("ClinicalTrials.gov request failed (" : String) =
      "ClinicalTrials" ++ ".gov request failed (" := by decide
  have hsplit : ("ClinicalTrials.gov request failed (" ++ toString status ++ ")").toList =
      ("ClinicalTrials" : String).toList ++
        ((".gov request failed (" : String).toList ++ (toString status).toList ++
          (")" : String).toList) := by
    rw [hA]
    simp only [String.toList, String.data_append, List.append_assoc]
  rw [hsplit]
  exact isPrefixOfL_append_self _ _

/-- Status mapping of the catch block on a ClinicalTrials failure. -/
theorem metaErrStatus_ctFailMsg (s : Nat) : metaErrStatus (ctFailMsg s) = 502 := by
  unfold metaErrStatus
  rw [hasSubstr_ctFailMsg]
  rfl

/-- C8: a non-success upstream response while serving any batch of the
id list aborts the whole metadata fetch: the GET handler returns the
single 502 error response carrying the ClinicalTrials failure message
for the upstream status, and no partial records reach the caller. -/
theorem c8_upstream_failure_aborts (upstream : CtUpstream String) (idsParam : String)
    (b : List String) (hb : b ∈ chunks (parseGetIds idsParam))
    (hfail : ∃ e, runPages (upstream b) = .error e) :
    ∃ s, trialMetaGET upstream idsParam = ⟨502, .error (ctFailMsg s)⟩ := by
  obtain ⟨e, he⟩ := hfail
  obtain ⟨s, hs⟩ := runBatches_error upstream (chunks (parseGetIds idsParam)) b hb e he
  have hne : (parseGetIds idsParam).isEmpty = false := by
    rcases hl : parseGetIds idsParam with _ | ⟨x, xs⟩
    · rw [hl] at hb
      rw [show chunks ([] : List String) = [] from rfl] at hb
      cases hb
    · rfl
  have hf : fetchTrialMeta upstream (parseGetIds idsParam) = .error (ctFailMsg s) := by
    unfold fetchTrialMeta
    rw [hs]
  refine ⟨s, ?_⟩
  simp only [trialMetaGET]
  rw [hne]
  simp only [Bool.false_eq_true, if_false]
  rw [hf]
  show MetaResponse.mk (metaErrStatus (ctFailMsg s)) (.error (ctFailMsg s)) =
    ⟨502, .error (ctFailMsg s)⟩
  rw [metaErrStatus_ctFailMsg]

/-- Witness for C8: one id, an upstream failing with HTTP 500. -/
theorem c8_witness :
    ∃ s, trialMetaGET upstreamFail "NCT01" = ⟨502, .error (ctFailMsg s)⟩ :=
  c8_upstream_failure_aborts upstreamFail "NCT01" ["NCT01"] (by decide) ⟨ctFailMsg 500, rfl⟩

set_option maxRecDepth 10000 in
set_option maxHeartbeats 1000000 in
/-- C3 evidence: the gateway batches the raw id list without
deduplication.  A duplicate-free list of 150 distinct ids yields the
two expected batches of 100 and 50, but the same 150-id set presented
with every id duplicated (300 raw entries) yields three batches of 100;
and an id repeated across batch boundaries yields one output record per
batch, so the output is not limited to one record per distinct id. -/
theorem c3_batching_on_raw_list :
    (chunks distinct150).map List.length = [100, 50]
    ∧ (chunks dup300).map List.length = [100, 100, 100]
    ∧ distinct150.Nodup ∧ dup300.length = 300
    ∧ fetchTrialMeta upstreamEchoA (List.replicate 101 "A") =
        .ok [⟨"A", "NA", none, none⟩, ⟨"A", "NA", none, none⟩] := by
  refine ⟨by decide, by decide, by decide, by decide, rfl⟩

/-- Splitting never yields an empty field list. -/
theorem splitComma_ne_nil (cs : List Char) : splitComma cs ≠ [] := by
  induction cs with
  | nil => simp [splitComma]
  | cons c rest ih =>
    rcases hc : (c == ',') with _ | _
    · rcases hs : splitComma rest with _ | ⟨w, ws⟩
      · exact absurd hs ih
      · simp [splitComma, hc, hs]
    · simp [splitComma, hc]

/-- Splitting after a comma-free prefix extends the first field. -/
theorem splitComma_append (id s : List Char) (h : ∀ c ∈ id, c ≠ ',')
    (w : List Char) (ws : List (List Char)) (hs : splitComma s = w :: ws) :
    splitComma (id ++ s) = (id ++ w) :: ws := by
  induction id with
  | nil => simpa using hs
  | cons c cs ih =>
    have hc : (c == ',') = false := by
      simpa using h c (List.mem_cons_self c cs)
    have hrest : splitComma (cs ++ s) = (cs ++ w) :: ws :=
      ih (fun x hx => h x (List.mem_cons_of_mem c hx))
    show splitComma (c :: (cs ++ s)) = ((c :: cs) ++ w) :: ws
    simp only [splitComma]
    rw [hc]
    simp only [Bool.false_eq_true, if_false]
    rw [hrest]
    rfl

/-- Character list of the comma-join of at least two strings. -/
theorem joinComma_toList_cons (x y : String) (rest : List String) :
    (joinComma (x :: y :: rest)).toList = x.toList ++ ',' :: (joinComma (y :: rest)).toList := by
  show (x ++ "," ++ joinComma (y :: rest)).toList = _
  simp [String.toList, String.data_append]

/-- Splitting the comma-join of comma-free strings recovers them. -/
theorem splitComma_joinComma (x : String) (rest : List String)
    (h : ∀ s ∈ x :: rest, ∀ c ∈ s.toList, c ≠ ',') :
    splitComma (joinComma (x :: rest)).toList = (x :: rest).map String.toList := by
  induction rest generalizing x with
  | nil =>
    have happ := splitComma_append x.toList [] (h x (List.mem_cons_self x [])) [] [] rfl
    simpa using happ
  | cons y rest2 ih =>
    rw [joinComma_toList_cons]
    have hs : splitComma (',' :: (joinComma (y :: rest2)).toList) =
        [] :: splitComma (joinComma (y :: rest2)).toList := by
      simp [splitComma]
    have happ := splitComma_append x.toList (',' :: (joinComma (y :: rest2)).toList)
      (h x (List.mem_cons_self x (y :: rest2))) []
      (splitComma (joinComma (y :: rest2)).toList) hs
    rw [happ]
    have hrest := ih y (fun s hs2 => h s (List.mem_cons_of_mem x hs2))
    rw [List.append_nil, hrest]
    rfl

/-- GET id parsing is a left inverse of the client comma-join on lists
of trim-invariant, non-empty, comma-free ids. -/
theorem parseGetIds_joinComma (ids : List String)
    (h : ∀ s ∈ ids, (∀ c ∈ s.toList, c ≠ ',') ∧ jsTrim s.toList = s.toList ∧ 0 < s.length) :
    parseGetIds (joinComma ids) = ids := by
  cases ids with
  | nil => rfl
  | cons x rest =>
    have hsplit := splitComma_joinComma x rest (fun s hs => (h s hs).1)
    unfold parseGetIds
    rw [hsplit, List.map_map]
    have hmap : (x :: rest).map
        ((fun cs => String.mk (jsTrim cs)) ∘ String.toList) = x :: rest := by
      have hcongr : ∀ s ∈ x :: rest,
          ((fun cs => String.mk (jsTrim cs)) ∘ String.toList) s = id s := by
        intro s hs
        show String.mk (jsTrim s.toList) = s
        rw [(h s hs).2.1]
        rfl
      rw [List.map_congr_left hcongr, List.map_id]
    rw [hmap, List.filter_eq_self.mpr]
    intro a ha
    simpa using (h a ha).2.2

/-- C6: for an identifier set of trim-invariant, non-empty, comma-free
ids, the query-string transport (comma-join then GET parsing) and the
body transport (POST parsing) present the gateway with the same id list,
so the two forms yield identical TrialAttributes sequences against any
upstream, and the whole responses coincide for a non-empty set; the
client chooses the body form exactly when the query-string URL would
exceed 1800 characters. -/
theorem c6_transport_equivalence (upstream : CtUpstream String) (ids : List String)
    (h : ∀ s ∈ ids, (∀ c ∈ s.toList, c ≠ ',') ∧ jsTrim s.toList = s.toList ∧ 0 < s.length) :
    parseGetIds (joinComma ids) = parsePostIds ids
    ∧ fetchTrialMeta upstream (parseGetIds (joinComma ids)) =
        fetchTrialMeta upstream (parsePostIds ids)
    ∧ (ids ≠ [] → trialMetaGET upstream (joinComma ids) = trialMetaPOST upstream ids)
    ∧ (clientTransport ids = MetaTransport.postForm ↔ 1800 < (metaUrl ids).length) := by
  have hget := parseGetIds_joinComma ids h
  have hpost : parsePostIds ids = ids := by
    unfold parsePostIds
    rw [List.filter_eq_self.mpr]
    intro a ha
    have h0 : 0 < a.length := (h a ha).2.2
    have hne : a ≠ "" := by
      intro heq
      subst heq
      simp at h0
    simpa using hne
  refine ⟨by rw [hget, hpost], by rw [hget, hpost], ?_, ?_⟩
  · intro hne
    have hie : ids.isEmpty = false := by
      rcases hi : ids.isEmpty with _ | _
      · rfl
      · exact absurd (by simpa using hi) hne
    simp only [trialMetaGET, trialMetaPOST]
    rw [hget, hpost, hie]
    simp only [Bool.false_eq_true, if_false]
  · unfold clientTransport
    by_cases hlen : 1800 < (metaUrl ids).length
    · simp [hlen]
    · simp [hlen]

/-- Witness for C6 on a concrete two-id set against a concrete
upstream. -/
theorem c6_witness :
    trialMetaGET upstreamEmpty (joinComma ["NCT01", "NCT02"]) =
      trialMetaPOST upstreamEmpty ["NCT01", "NCT02"] :=
  (c6_transport_equivalence upstreamEmpty ["NCT01", "NCT02"] (by decide)).2.2.1
    (by decide)
